import Mathlib

/-
  Shallow embedding of the risk-managed paper-trading core of the
  TradingAlgo repository (src/strategy-engine/paper_exchange.py and
  src/strategy-engine/risk_manager.py).

  Python floats are modelled as exact rationals.  Python round(x, n)
  rounds half to even, modelled by rhalfEven; Python int() truncates
  toward zero, modelled by pyTrunc.  The random draws of execute_order
  (slippage, outcome, reward multiple) are passed as explicit arguments.
  The wall-clock timestamp written into a trade record is outside the
  model and omitted from the Trade structure.
-/

namespace TradingAlgo

/-- Round-half-even of a rational to an integer, as Python round does. -/
def rhalfEven (q : ℚ) : ℤ :=
  let f := ⌊q⌋
  if q - f < 1/2 then f
  else if 1/2 < q - f then f + 1
  else if f % 2 = 0 then f else f + 1

/-- Python round(x, 2). -/
def roundTo2 (q : ℚ) : ℚ := (rhalfEven (q * 100) : ℚ) / 100

/-- Python round(x, 1). -/
def roundTo1 (q : ℚ) : ℚ := (rhalfEven (q * 10) : ℚ) / 10

/-- Python int() on a rational: truncation toward zero. -/
def pyTrunc (q : ℚ) : ℤ := if q < 0 then -⌊-q⌋ else ⌊q⌋

/-- A trade record, as built by PaperExchange.execute_order. -/
structure Trade where
  symbol : String
  action : String
  price : ℚ
  pnl : ℚ
  result : String
  reasoning : String
  deriving Repr, DecidableEq

/-- The mutable state of PaperExchange: balance, pnl, history. -/
structure ExchangeState where
  balance : ℚ
  pnl : ℚ
  history : List Trade
  deriving Repr, DecidableEq

/-- PaperExchange.__init__ / the state after PaperExchange.reset. -/
def initExchange : ExchangeState :=
  { balance := 100000, pnl := 0, history := [] }

/-- PaperExchange.reset. -/
def ExchangeState.reset (_ : ExchangeState) : ExchangeState := initExchange

/-- The outcome drawn by execute_order from ["WIN", "LOSS", "WIN"];
the 2:1 weighting is irrelevant to the state transition. -/
inductive Outcome where
  | WIN : Outcome
  | LOSS : Outcome
  deriving Repr, DecidableEq

/-- The string stored in the result field of a trade record. -/
def Outcome.toString : Outcome → String
  | .WIN => "WIN"
  | .LOSS => "LOSS"

/-- The fill price line of PaperExchange.execute_order:
price + slippage if action == "BUY" else price - slippage. -/
def fillPrice (action : String) (price slippage : ℚ) : ℚ :=
  if action = "BUY" then price + slippage else price - slippage

/-- The outcome branch of PaperExchange.execute_order: on a WIN the risk
amount |fill - stop| * quantity * 20 times the reward multiple rr, on a
LOSS the negated risk amount. -/
def profitOf (outcome : Outcome) (fill stop : ℚ) (quantity : ℤ) (rr : ℚ) : ℚ :=
  match outcome with
  | .WIN => |fill - stop| * quantity * 20 * rr
  | .LOSS => -(|fill - stop| * quantity * 20)

/-- PaperExchange.execute_order with the three random draws (slippage,
outcome, reward multiple rr) passed explicitly.  Returns the updated
exchange state together with the trade record the method returns. -/
def executeOrder (st : ExchangeState) (symbol action : String) (quantity : ℤ)
    (price stop : ℚ) (reasoning : String)
    (slippage : ℚ) (outcome : Outcome) (rr : ℚ) : ExchangeState × Trade :=
  let fill_price := fillPrice action price slippage
  let commission : ℚ := 2 * quantity
  let profit : ℚ := profitOf outcome fill_price stop quantity rr
  let trade_record : Trade :=
    { symbol := symbol
      action := action
      price := roundTo2 fill_price
      pnl := roundTo2 (profit - commission)
      result := outcome.toString
      reasoning := reasoning }
  ({ balance := st.balance + (profit - commission)
     pnl := st.pnl + (profit - commission)
     history := st.history ++ [trade_record] },
   trade_record)

/-- The stats dictionary returned by PaperExchange.get_stats. -/
structure Stats where
  balance : ℚ
  pnl : ℚ
  trades_count : ℕ
  win_rate : ℚ
  history : List Trade
  deriving Repr, DecidableEq

/-- PaperExchange.get_stats. -/
def getStats (st : ExchangeState) : Stats :=
  let wins := (st.history.filter (fun t => t.result = "WIN")).length
  let total := st.history.length
  { balance := roundTo2 st.balance
    pnl := roundTo2 st.pnl
    trades_count := total
    win_rate := if 0 < total then roundTo1 ((wins : ℚ) / (total : ℚ) * 100) else 0
    history := st.history.drop (st.history.length - 10) }

/-- RiskManager constants from __init__. -/
def max_daily_loss : ℚ := 1000

/-- RiskManager.max_trades_daily. -/
def max_trades_daily : ℕ := 5

/-- RiskManager.risk_per_trade_pct = 0.005. -/
def risk_per_trade_pct : ℚ := 5 / 1000

/-- The mutable state of RiskManager: the owned exchange plus the
trades_today counter. -/
structure RMState where
  exchange : ExchangeState
  trades_today : ℕ
  deriving Repr, DecidableEq

/-- RiskManager.__init__. -/
def initRM : RMState := { exchange := initExchange, trades_today := 0 }

/-- RiskManager.can_trade. -/
def canTrade (s : RMState) : Bool × String :=
  let state := getStats s.exchange
  if state.pnl ≤ -max_daily_loss then (false, "Daily Loss Limit Hit")
  else if max_trades_daily ≤ s.trades_today then (false, "Max Trades Reached")
  else (true, "OK")

/-- A sizing decision as returned by RiskManager.calculate_position_size.
The tier field holds the literal string of the source: "MINI" is the
standard tier of the spec, "MICRO" the micro tier. -/
structure Sizing where
  tier : String
  symbol : String
  contracts : ℤ
  deriving Repr, DecidableEq

/-- The point distance used by calculate_position_size: the absolute
entry/stop distance, replaced by 10 when it is zero. -/
def pointDistance (entry_price stop_price : ℚ) : ℚ :=
  let point_diff := |entry_price - stop_price|
  if point_diff = 0 then 10 else point_diff

/-- RiskManager.calculate_position_size. -/
def calculatePositionSize (s : RMState) (entry_price stop_price : ℚ)
    (instrument : String) : Sizing :=
  let state := getStats s.exchange
  let risk_amount := state.balance * risk_per_trade_pct
  let tick_val_mini : ℚ := if instrument = "NQ" then 20 else 50
  let tick_val_micro : ℚ := if instrument = "NQ" then 2 else 5
  let point_diff := pointDistance entry_price stop_price
  let risk_per_mini := point_diff * tick_val_mini
  if risk_per_mini ≤ risk_amount then
    { tier := "MINI", symbol := instrument
      contracts := max 1 (pyTrunc (risk_amount / risk_per_mini)) }
  else
    { tier := "MICRO", symbol := "M" ++ instrument
      contracts := max 1 (pyTrunc (risk_amount / (point_diff * tick_val_micro))) }

/-- RiskManager.execute_paper_trade: sizes the position for the
hard-coded instrument "NQ", executes the order on the exchange, then
increments trades_today. -/
def executePaperTrade (s : RMState) (symbol action : String)
    (price stop : ℚ) (reasoning : String)
    (slippage : ℚ) (outcome : Outcome) (rr : ℚ) : RMState × Trade × Sizing :=
  let sizing := calculatePositionSize s price stop "NQ"
  let res := executeOrder s.exchange sizing.symbol action sizing.contracts
      price stop reasoning slippage outcome rr
  ({ exchange := res.1, trades_today := s.trades_today + 1 }, res.2, sizing)

/-- The dashboard dictionary returned by RiskManager.get_status. -/
structure Status where
  balance : ℚ
  daily_pl : ℚ
  daily_limit : ℚ
  trades_today : ℕ
  max_trades : ℕ
  label : String
  win_rate : ℚ
  trades_count : ℕ
  history : List Trade
  deriving Repr, DecidableEq

/-- RiskManager.get_status: a pure read of the current state. -/
def getStatus (s : RMState) : Status :=
  let stats := getStats s.exchange
  { balance := stats.balance
    daily_pl := stats.pnl
    daily_limit := max_daily_loss
    trades_today := s.trades_today
    max_trades := max_trades_daily
    label := if (canTrade s).1 then "TRADING ACTIVE" else "TRADING HALTED"
    win_rate := stats.win_rate
    trades_count := stats.trades_count
    history := stats.history }

/-- RiskManager.reset_account. -/
def resetAccount (s : RMState) : RMState :=
  { exchange := s.exchange.reset, trades_today := 0 }

/-- States reachable from the fresh RiskManager state by the operations
of the two classes.  The state-changing operations are a direct
execute_order call on the owned exchange, execute_paper_trade, a direct
exchange reset, and reset_account; can_trade, calculate_position_size,
get_stats and get_status are pure reads (modelled above as functions
that return values without a new state), so they leave the state
unchanged and need no constructor.  The random draws carry the
constraints of the source: slippage is drawn from [0, 0.25, 0.5] and the
reward multiple from the interval [1.5, 3.0] on a WIN. -/
inductive Reachable : RMState → Prop where
  | base : Reachable initRM
  | execOrder (s : RMState) (symbol action : String) (quantity : ℤ)
      (price stop : ℚ) (reasoning : String)
      (slippage : ℚ) (outcome : Outcome) (rr : ℚ)
      (hs : Reachable s)
      (hsl : slippage = 0 ∨ slippage = 1/4 ∨ slippage = 1/2)
      (hrr : outcome = .WIN → 3/2 ≤ rr ∧ rr ≤ 3) :
      Reachable { exchange := (executeOrder s.exchange symbol action quantity
                    price stop reasoning slippage outcome rr).1,
                  trades_today := s.trades_today }
  | execPaper (s : RMState) (symbol action : String)
      (price stop : ℚ) (reasoning : String)
      (slippage : ℚ) (outcome : Outcome) (rr : ℚ)
      (hs : Reachable s)
      (hsl : slippage = 0 ∨ slippage = 1/4 ∨ slippage = 1/2)
      (hrr : outcome = .WIN → 3/2 ≤ rr ∧ rr ≤ 3) :
      Reachable (executePaperTrade s symbol action price stop reasoning
                    slippage outcome rr).1
  | resetExchange (s : RMState) (hs : Reachable s) :
      Reachable { exchange := s.exchange.reset, trades_today := s.trades_today }
  | resetAcct (s : RMState) (hs : Reachable s) :
      Reachable (resetAccount s)

/-- Steps of the RiskManager interface alone: execute_paper_trade and
reset_account change the state; can_trade, calculate_position_size and
get_status are pure reads and leave it unchanged. -/
inductive ManagerStep : RMState → RMState → Prop where
  | execPaper (s : RMState) (symbol action : String)
      (price stop : ℚ) (reasoning : String)
      (slippage : ℚ) (outcome : Outcome) (rr : ℚ)
      (hsl : slippage = 0 ∨ slippage = 1/4 ∨ slippage = 1/2)
      (hrr : outcome = .WIN → 3/2 ≤ rr ∧ rr ≤ 3) :
      ManagerStep s (executePaperTrade s symbol action price stop reasoning
                    slippage outcome rr).1
  | resetAcct (s : RMState) : ManagerStep s (resetAccount s)

/-- The arguments of one execute_paper_trade call, random draws included. -/
structure TradeCall where
  symbol : String
  action : String
  price : ℚ
  stop : ℚ
  reasoning : String
  slippage : ℚ
  outcome : Outcome
  rr : ℚ

/-- Run a sequence of execute_paper_trade calls from a given state. -/
def runPaperTrades (s : RMState) : List TradeCall → RMState
  | [] => s
  | c :: cs => runPaperTrades
      (executePaperTrade s c.symbol c.action c.price c.stop c.reasoning
        c.slippage c.outcome c.rr).1 cs

/-! ### Helper lemmas -/

/-- Python int() agrees with the floor under max with 1: for nonnegative
arguments the two coincide, and for negative arguments both sides are 1. -/
lemma max_one_pyTrunc_eq_max_one_floor (q : ℚ) :
    max 1 (pyTrunc q) = max 1 ⌊q⌋ := by
  unfold pyTrunc
  split_ifs with h
  · have h1 : ⌊q⌋ ≤ 0 := by
      have := Int.floor_le q
      have : (⌊q⌋ : ℚ) < 0 := lt_of_le_of_lt this h
      exact_mod_cast this.le
    have h2 : -⌊-q⌋ ≤ 0 := by
      have : (0 : ℚ) ≤ -q := by linarith
      have := Int.le_floor.mpr (by exact_mod_cast this : ((0 : ℤ) : ℚ) ≤ -q)
      omega
    rw [max_eq_left (by omega), max_eq_left (by omega)]
  · rfl

/-- Round-half-even never exceeds an integer upper bound of its argument. -/
lemma rhalfEven_le_of_le (x : ℚ) (n : ℤ) (h : x ≤ n) : rhalfEven x ≤ n := by
  have hfn : ⌊x⌋ ≤ n := by
    have := Int.floor_mono h
    simpa using this
  have hfl : (⌊x⌋ : ℚ) ≤ x := Int.floor_le x
  unfold rhalfEven
  dsimp only
  split_ifs with h1 h2 h3
  · exact hfn
  · have hx : (⌊x⌋ : ℚ) < x := by linarith
    have : (⌊x⌋ : ℚ) < (n : ℚ) := lt_of_lt_of_le hx h
    have : ⌊x⌋ < n := by exact_mod_cast this
    omega
  · exact hfn
  · have hx : (⌊x⌋ : ℚ) < x := by linarith
    have : (⌊x⌋ : ℚ) < (n : ℚ) := lt_of_lt_of_le hx h
    have : ⌊x⌋ < n := by exact_mod_cast this
    omega

/-- A rational at most -1000 still rounds to at most -1000. -/
lemma roundTo2_le_neg1000 (q : ℚ) (h : q ≤ -1000) : roundTo2 q ≤ -1000 := by
  have h100 : q * 100 ≤ ((-100000 : ℤ) : ℚ) := by push_cast; linarith
  have := rhalfEven_le_of_le (q * 100) (-100000) h100
  unfold roundTo2
  rw [div_le_iff₀ (by norm_num)]
  calc (rhalfEven (q * 100) : ℚ) ≤ ((-100000 : ℤ) : ℚ) := by exact_mod_cast this
    _ = -1000 * 100 := by norm_num

/-! ### C1: ledger consistency -/

/-- C1.  Ledger consistency: every account state reachable from the
initial state by the operations of the paper exchange and the risk
manager satisfies balance = 100000 + cumulative pnl, because
execute_order adds the same net amount (profit minus commission) to both
fields and the resets restore the initial values. -/
theorem ledger_consistency (s : RMState) (h : Reachable s) :
    s.exchange.balance = 100000 + s.exchange.pnl := by
  induction h with
  | base => norm_num [initRM, initExchange]
  | execOrder s symbol action quantity price stop reasoning slippage outcome rr
      hs hsl hrr ih =>
    simp only [executeOrder]
    rw [ih]; ring
  | execPaper s symbol action price stop reasoning slippage outcome rr
      hs hsl hrr ih =>
    simp only [executePaperTrade, executeOrder]
    rw [ih]; ring
  | resetExchange s hs ih => norm_num [ExchangeState.reset, initExchange]
  | resetAcct s hs ih => norm_num [resetAccount, ExchangeState.reset, initExchange]

/-- Witness for C1 at the initial state. -/
theorem ledger_consistency_witness :
    initRM.exchange.balance = 100000 + initRM.exchange.pnl :=
  ledger_consistency initRM Reachable.base

/-! ### C7: reset postcondition -/

/-- C7.  After reset_account, whatever the prior state, the balance is
100000.00, the cumulative pnl is 0, the trade history is empty and
trades_today is 0.  resetAccount is a pure function from old state to
new state, so no intermediate state is observable in this model. -/
theorem reset_account_postcondition (s : RMState) :
    (resetAccount s).exchange.balance = 100000 ∧
    (resetAccount s).exchange.pnl = 0 ∧
    (resetAccount s).exchange.history = [] ∧
    (resetAccount s).trades_today = 0 :=
  ⟨rfl, rfl, rfl, rfl⟩

/-! ### C5: sizing totality and minimum size -/

/-- C5.  calculate_position_size is total: the point distance it divides
by is positive (10 is substituted when entry equals stop, so no division
by zero can occur), and the returned contract count is at least 1 for
every state, entry price, stop price and instrument. -/
theorem sizing_total_min_one (s : RMState) (entry_price stop_price : ℚ)
    (instrument : String) :
    0 < pointDistance entry_price stop_price ∧
    (entry_price = stop_price → pointDistance entry_price stop_price = 10) ∧
    1 ≤ (calculatePositionSize s entry_price stop_price instrument).contracts := by
  refine ⟨?_, ?_, ?_⟩
  · unfold pointDistance
    dsimp only
    split_ifs with h
    · norm_num
    · exact lt_of_le_of_ne (abs_nonneg _) (Ne.symm h)
  · intro h
    simp [pointDistance, h]
  · unfold calculatePositionSize
    dsimp only
    split_ifs <;> simp

/-- Witness for C5 with equal entry and stop prices. -/
theorem sizing_total_min_one_witness :
    0 < pointDistance 100 100 ∧ pointDistance 100 100 = 10 ∧
    1 ≤ (calculatePositionSize initRM 100 100 "ES").contracts :=
  ⟨(sizing_total_min_one initRM 100 100 "ES").1,
   (sizing_total_min_one initRM 100 100 "ES").2.1 rfl,
   (sizing_total_min_one initRM 100 100 "ES").2.2⟩

/-! ### C3: trade count and history agree -/

/-- One execute_paper_trade call appends exactly one record and adds
exactly one to trades_today. -/
lemma executePaperTrade_effect (s : RMState) (symbol action : String)
    (price stop : ℚ) (reasoning : String)
    (slippage : ℚ) (outcome : Outcome) (rr : ℚ) :
    (executePaperTrade s symbol action price stop reasoning
        slippage outcome rr).1.trades_today = s.trades_today + 1 ∧
    (executePaperTrade s symbol action price stop reasoning
        slippage outcome rr).1.exchange.history.length
      = s.exchange.history.length + 1 := by
  simp [executePaperTrade, executeOrder]

/-- Running a list of calls adds its length to both counters. -/
lemma runPaperTrades_counts (calls : List TradeCall) (s : RMState) :
    (runPaperTrades s calls).trades_today = s.trades_today + calls.length ∧
    (runPaperTrades s calls).exchange.history.length
      = s.exchange.history.length + calls.length := by
  induction calls generalizing s with
  | nil => simp [runPaperTrades]
  | cons c cs ih =>
    have he := executePaperTrade_effect s c.symbol c.action c.price c.stop
      c.reasoning c.slippage c.outcome c.rr
    have := ih (executePaperTrade s c.symbol c.action c.price c.stop
      c.reasoning c.slippage c.outcome c.rr).1
    simp only [runPaperTrades, List.length_cons]
    omega

/-- C3.  trades_today = len(trade_history) is preserved by every
RiskManager operation (execute_paper_trade and reset_account change the
state; the other operations are pure reads), each execute_paper_trade
call appends exactly one record and increments trades_today exactly
once, and after N calls from the fresh state both counters equal N. -/
theorem trades_today_history_agreement :
    (∀ s s' : RMState, ManagerStep s s' →
      s.trades_today = s.exchange.history.length →
      s'.trades_today = s'.exchange.history.length) ∧
    (∀ (s : RMState) (symbol action : String) (price stop : ℚ)
        (reasoning : String) (slippage : ℚ) (outcome : Outcome) (rr : ℚ),
      (executePaperTrade s symbol action price stop reasoning
          slippage outcome rr).1.trades_today = s.trades_today + 1 ∧
      (executePaperTrade s symbol action price stop reasoning
          slippage outcome rr).1.exchange.history.length
        = s.exchange.history.length + 1) ∧
    (∀ calls : List TradeCall,
      (runPaperTrades initRM calls).trades_today = calls.length ∧
      (runPaperTrades initRM calls).exchange.history.length = calls.length) := by
  refine ⟨?_, executePaperTrade_effect, ?_⟩
  · intro s s' hstep hinv
    cases hstep with
    | execPaper symbol action price stop reasoning slippage outcome rr hsl hrr =>
      have := executePaperTrade_effect s symbol action price stop reasoning
        slippage outcome rr
      omega
    | resetAcct => simp [resetAccount, ExchangeState.reset, initExchange]
  · intro calls
    have := runPaperTrades_counts calls initRM
    simpa [initRM, initExchange] using this

/-- Witness for C3: a concrete reset step and a concrete one-call run. -/
theorem trades_today_history_agreement_witness :
    (resetAccount initRM).trades_today
      = (resetAccount initRM).exchange.history.length ∧
    (runPaperTrades initRM
        [⟨"NQ=F", "BUY", 20000, 19990, "r", 0, Outcome.WIN, 2⟩]).trades_today = 1 :=
  ⟨trades_today_history_agreement.1 initRM (resetAccount initRM)
      (ManagerStep.resetAcct initRM) rfl,
   (trades_today_history_agreement.2.2
      [⟨"NQ=F", "BUY", 20000, 19990, "r", 0, Outcome.WIN, 2⟩]).1⟩

/-! ### C2: can_trade decision -/

/-- Counterexample for C2 as stated.  At raw cumulative pnl -999.996
(strictly above -1000) with trades_today = 0, the claim predicts
(true, "OK"), but can_trade reads the pnl rounded to two decimals
(-1000.00) and returns (false, "Daily Loss Limit Hit"). -/
theorem can_trade_raw_pnl_cex :
    (-1000 : ℚ) < -999.996 ∧
    canTrade { exchange := { balance := 99000.004, pnl := -999.996, history := [] },
               trades_today := 0 } = (false, "Daily Loss Limit Hit") := by
  constructor
  · norm_num
  · norm_num [canTrade, getStats, roundTo2, rhalfEven, max_daily_loss]

/-- C2 amended.  can_trade decides on the cumulative pnl rounded to two
decimals (the value get_stats exposes): it returns
(false, "Daily Loss Limit Hit") whenever the rounded pnl is at most
-1000 — in particular whenever the raw pnl is at most -1000 — regardless
of trades_today; otherwise (false, "Max Trades Reached") whenever
trades_today is at least 5; otherwise (true, "OK").  The rejection is
returned as a pair of a boolean and a reason string, never an
exception. -/
theorem can_trade_cases (s : RMState) :
    (s.exchange.pnl ≤ -1000 → canTrade s = (false, "Daily Loss Limit Hit")) ∧
    (roundTo2 s.exchange.pnl ≤ -1000 →
      canTrade s = (false, "Daily Loss Limit Hit")) ∧
    (-1000 < roundTo2 s.exchange.pnl → 5 ≤ s.trades_today →
      canTrade s = (false, "Max Trades Reached")) ∧
    (-1000 < roundTo2 s.exchange.pnl → s.trades_today < 5 →
      canTrade s = (true, "OK")) := by
  refine ⟨?_, ?_, ?_, ?_⟩
  · intro h
    have := roundTo2_le_neg1000 s.exchange.pnl h
    simp [canTrade, getStats, max_daily_loss, this]
  · intro h
    simp [canTrade, getStats, max_daily_loss, h]
  · intro h ht
    rw [canTrade]
    simp only [getStats]
    rw [if_neg (by simp [max_daily_loss]; linarith),
        if_pos (by simpa [max_trades_daily] using ht)]
  · intro h ht
    rw [canTrade]
    simp only [getStats]
    rw [if_neg (by simp [max_daily_loss]; linarith),
        if_neg (by simpa [max_trades_daily] using ht)]

/-- Witness for C2 (amended) at the initial state. -/
theorem can_trade_cases_witness : canTrade initRM = (true, "OK") :=
  (can_trade_cases initRM).2.2.2
    (by norm_num [initRM, initExchange, roundTo2, rhalfEven])
    (by norm_num [initRM])

/-! ### C10: the daily-loss check uses the rounded pnl -/

/-- C10.  The "Daily Loss Limit Hit" branch of can_trade fires exactly
when the cumulative pnl rounded to two decimals (the value exposed by
get_stats) is at most -1000: a raw pnl of -999.995 rounds half-to-even
to -1000.00 and halts trading, while -999.994 rounds to -999.99 and does
not. -/
theorem daily_loss_uses_rounded_pnl :
    (∀ s : RMState,
      (canTrade s).2 = "Daily Loss Limit Hit" ↔ roundTo2 s.exchange.pnl ≤ -1000) ∧
    canTrade { exchange := { balance := 99000.005, pnl := -999.995, history := [] },
               trades_today := 0 } = (false, "Daily Loss Limit Hit") ∧
    canTrade { exchange := { balance := 99000.006, pnl := -999.994, history := [] },
               trades_today := 0 } = (true, "OK") := by
  refine ⟨?_, ?_, ?_⟩
  · intro s
    constructor
    · intro h
      by_contra hc
      push_neg at hc
      rw [canTrade] at h
      simp only [getStats] at h
      rw [if_neg (by simp [max_daily_loss]; linarith)] at h
      split_ifs at h <;> simp_all
    · intro h
      simp [canTrade, getStats, max_daily_loss, h]
  · norm_num [canTrade, getStats, roundTo2, rhalfEven, max_daily_loss]
  · norm_num [canTrade, getStats, roundTo2, rhalfEven, max_daily_loss,
      max_trades_daily]

/-- Witness for C10 instantiating the equivalence at the initial state. -/
theorem daily_loss_uses_rounded_pnl_witness :
    ¬ (canTrade initRM).2 = "Daily Loss Limit Hit" := by
  intro h
  have := (daily_loss_uses_rounded_pnl.1 initRM).mp h
  norm_num [initRM, initExchange, roundTo2, rhalfEven] at this

/-! ### C4: position sizing rule -/

/-- Counterexample for C4 as stated.  calculate_position_size computes
its risk budget from the balance rounded to two decimals (read through
get_stats), not from the raw stored balance.  At the reachable balance
100700.005 (one WIN of net 700.005 after the fresh 100000) and an
entry/stop distance of 25.17500125, the raw risk budget 503.500025
exactly meets the standard per-contract risk, so the claim predicts the
standard tier with the unprefixed symbol and max(1, floor(1)) = 1
contract; the code rounds the balance to 100700.00, gets risk budget
503.5 < 503.500025, and returns the micro tier with symbol "MNQ" and 9
contracts. -/
theorem position_sizing_raw_balance_cex :
    roundTo2 (100700.005 : ℚ) ≠ 100700.005 ∧
    pointDistance 20025.17500125 20000 * 20
      ≤ (100700.005 : ℚ) * risk_per_trade_pct ∧
    max 1 ⌊(100700.005 : ℚ) * risk_per_trade_pct
        / (pointDistance 20025.17500125 20000 * 20)⌋ = 1 ∧
    calculatePositionSize
        { exchange := { balance := 100700.005, pnl := 700.005, history := [] },
          trades_today := 0 } 20025.17500125 20000 "NQ"
      = { tier := "MICRO", symbol := "MNQ", contracts := 9 } := by
  have hsub : |(20025.17500125 : ℚ) - 20000| = 20140001 / 800000 := by
    rw [abs_of_pos (by norm_num)]; norm_num
  have hpd : pointDistance 20025.17500125 20000 = 20140001 / 800000 := by
    unfold pointDistance
    dsimp only
    rw [hsub]
    norm_num
  refine ⟨?_, ?_, ?_, ?_⟩
  · norm_num [roundTo2, rhalfEven]
  · rw [hpd]; norm_num [risk_per_trade_pct]
  · rw [hpd]; norm_num [risk_per_trade_pct]
  · rw [calculatePositionSize]
    simp only [getStats]
    rw [hpd]
    norm_num [roundTo2, rhalfEven, risk_per_trade_pct, pyTrunc]
    decide

/-- C4 amended.  Position sizing rule for every state, entry price, stop
price and instrument class, with the risk budget computed from the
balance rounded to two decimals (the value get_stats exposes to the
sizer) times 0.005, and point_distance the entry/stop distance (10 when
they are equal): if the risk budget is at least point_distance times the
standard per-point value, the decision is the standard tier ("MINI" in
the source) with the unprefixed symbol and max(1, floor(risk_budget /
(point_distance × standard value))) contracts; otherwise it is the micro
tier with the symbol given an "M" in front and max(1,
floor(risk_budget / (point_distance × micro value))) contracts.  In
particular entry 20000, stop 19990 and balance 100000 give the standard
tier with 2 contracts. -/
theorem position_sizing_rounded_rule :
    (∀ (s : RMState) (entry_price stop_price : ℚ) (instrument : String),
      calculatePositionSize s entry_price stop_price instrument =
        (let risk_budget := roundTo2 s.exchange.balance * risk_per_trade_pct
         let pd := pointDistance entry_price stop_price
         let val_std : ℚ := if instrument = "NQ" then 20 else 50
         let val_micro : ℚ := if instrument = "NQ" then 2 else 5
         if pd * val_std ≤ risk_budget then
           { tier := "MINI", symbol := instrument
             contracts := max 1 ⌊risk_budget / (pd * val_std)⌋ }
         else
           { tier := "MICRO", symbol := "M" ++ instrument
             contracts := max 1 ⌊risk_budget / (pd * val_micro)⌋ })) ∧
    calculatePositionSize initRM 20000 19990 "NQ"
      = { tier := "MINI", symbol := "NQ", contracts := 2 } := by
  constructor
  · intro s entry_price stop_price instrument
    rw [calculatePositionSize]
    simp only [getStats]
    split_ifs
    all_goals rw [max_one_pyTrunc_eq_max_one_floor]
  · norm_num [calculatePositionSize, getStats, initRM, initExchange, roundTo2,
      rhalfEven, pointDistance, risk_per_trade_pct, pyTrunc]

/-! ### C6: the simulated pnl formula -/

/-- Counterexample for C6 as stated.  A WIN with fill price 100, stop
99, quantity 1 and reward multiple 1.5001 (inside [1.5, 3.0], slippage
0) yields profit − commission = 28.002: the balance and cumulative pnl
move by exactly 28.002, but the pnl recorded on the Trade is the rounded
28.00, so the recorded value does not equal profit − commission. -/
theorem pnl_record_rounding_cex :
    ((3 : ℚ)/2 ≤ 15001/10000 ∧ (15001 : ℚ)/10000 ≤ 3) ∧
    (executeOrder initExchange "NQ" "BUY" 1 100 99 "r" 0 .WIN
        (15001/10000)).1.balance = 100000 + 28.002 ∧
    (executeOrder initExchange "NQ" "BUY" 1 100 99 "r" 0 .WIN
        (15001/10000)).2.pnl = 28 ∧
    (28 : ℚ) ≠ 28.002 := by
  refine ⟨⟨by norm_num, by norm_num⟩, ?_, ?_, by norm_num⟩
  · norm_num [executeOrder, profitOf, fillPrice, initExchange, abs_of_pos]
  · norm_num [executeOrder, profitOf, fillPrice, initExchange, abs_of_pos,
      roundTo2, rhalfEven]

/-- C6 amended.  For every execute_order call, with the random draws
as hypotheses, both balance and cumulative pnl increase by exactly
profit − commission, where commission is the per-contract rate 2 times
the quantity, profit is |fill − stop| × quantity × 20 × rr on a WIN
(rr in [1.5, 3.0]) and −(|fill − stop| × quantity × 20) on a LOSS; the
pnl recorded on the Trade is profit − commission rounded to two
decimals. -/
theorem pnl_formula (st : ExchangeState) (symbol action : String)
    (quantity : ℤ) (price stop : ℚ) (reasoning : String)
    (slippage : ℚ) (outcome : Outcome) (rr : ℚ)
    (hsl : slippage = 0 ∨ slippage = 1/4 ∨ slippage = 1/2)
    (hrr : outcome = .WIN → 3/2 ≤ rr ∧ rr ≤ 3) :
    (let fill := fillPrice action price slippage
     let commission : ℚ := 2 * quantity
     let profit : ℚ := profitOf outcome fill stop quantity rr
     (executeOrder st symbol action quantity price stop reasoning
         slippage outcome rr).1.balance = st.balance + (profit - commission) ∧
     (executeOrder st symbol action quantity price stop reasoning
         slippage outcome rr).1.pnl = st.pnl + (profit - commission) ∧
     (executeOrder st symbol action quantity price stop reasoning
         slippage outcome rr).2.pnl = roundTo2 (profit - commission)) :=
  ⟨rfl, rfl, rfl⟩

/-- Witness for C6 (amended): a WIN with reward multiple 2 and zero
slippage. -/
theorem pnl_formula_witness :
    (executeOrder initExchange "NQ" "BUY" 1 100 99 "r" 0 .WIN 2).1.balance
        = initExchange.balance
          + (profitOf .WIN (fillPrice "BUY" 100 0) 99 1 2 - 2 * (1 : ℤ)) ∧
    (executeOrder initExchange "NQ" "BUY" 1 100 99 "r" 0 .WIN 2).1.pnl
        = initExchange.pnl
          + (profitOf .WIN (fillPrice "BUY" 100 0) 99 1 2 - 2 * (1 : ℤ)) ∧
    (executeOrder initExchange "NQ" "BUY" 1 100 99 "r" 0 .WIN 2).2.pnl
        = roundTo2 (profitOf .WIN (fillPrice "BUY" 100 0) 99 1 2 - 2 * (1 : ℤ)) :=
  pnl_formula initExchange "NQ" "BUY" 1 100 99 "r" 0 .WIN 2
    (Or.inl rfl) (fun _ => by norm_num)

/-! ### C8: the symbol argument of execute_paper_trade is ignored -/

/-- C8.  execute_paper_trade ignores its symbol argument: the result is
the same for any symbol (in particular the engine string "NQ=F"), the
sizing is always calculate_position_size with the hard-coded "NQ", and
the symbol stored on the resulting Trade is exactly "NQ" on the standard
("MINI") tier and exactly "MNQ" on the micro tier. -/
theorem symbol_ignored (s : RMState) (symbol action : String)
    (price stop : ℚ) (reasoning : String)
    (slippage : ℚ) (outcome : Outcome) (rr : ℚ) :
    executePaperTrade s symbol action price stop reasoning slippage outcome rr
      = executePaperTrade s "NQ=F" action price stop reasoning slippage
          outcome rr ∧
    (executePaperTrade s symbol action price stop reasoning slippage outcome
        rr).2.2 = calculatePositionSize s price stop "NQ" ∧
    (((executePaperTrade s symbol action price stop reasoning slippage outcome
          rr).2.2.tier = "MINI" ∧
      (executePaperTrade s symbol action price stop reasoning slippage outcome
          rr).2.1.symbol = "NQ") ∨
     ((executePaperTrade s symbol action price stop reasoning slippage outcome
          rr).2.2.tier = "MICRO" ∧
      (executePaperTrade s symbol action price stop reasoning slippage outcome
          rr).2.1.symbol = "MNQ")) := by
  refine ⟨rfl, rfl, ?_⟩
  have htier : (executePaperTrade s symbol action price stop reasoning slippage
      outcome rr).2.2 = calculatePositionSize s price stop "NQ" := rfl
  have hsym : (executePaperTrade s symbol action price stop reasoning slippage
      outcome rr).2.1.symbol = (calculatePositionSize s price stop "NQ").symbol :=
    rfl
  rw [htier, hsym]
  unfold calculatePositionSize
  dsimp only
  split_ifs <;>
    first
      | exact Or.inl ⟨rfl, rfl⟩
      | exact Or.inr ⟨rfl, by decide⟩
      | simp_all

/-! ### C9: every non-"BUY" action is a sell -/

/-- C9.  Any action other than exactly "BUY" is filled as a sell: the
fill price is the reference price minus the slippage, the recorded price
is that fill rounded, the action string is stored unchanged, and the
order always executes and appends its record — there is no validation
branch on the action. -/
theorem non_buy_treated_as_sell (st : ExchangeState) (symbol action : String)
    (quantity : ℤ) (price stop : ℚ) (reasoning : String)
    (slippage : ℚ) (outcome : Outcome) (rr : ℚ)
    (h : action ≠ "BUY") :
    fillPrice action price slippage = price - slippage ∧
    (executeOrder st symbol action quantity price stop reasoning slippage
        outcome rr).2.price = roundTo2 (price - slippage) ∧
    (executeOrder st symbol action quantity price stop reasoning slippage
        outcome rr).2.action = action ∧
    (executeOrder st symbol action quantity price stop reasoning slippage
        outcome rr).1.history
      = st.history ++ [(executeOrder st symbol action quantity price stop
          reasoning slippage outcome rr).2] := by
  refine ⟨by simp [fillPrice, h], ?_, rfl, rfl⟩
  simp [executeOrder, fillPrice, h]

/-- Witness for C9 with the lowercase action "buy". -/
theorem non_buy_treated_as_sell_witness :
    fillPrice "buy" 100 (1/4) = 100 - 1/4 ∧
    (executeOrder initExchange "NQ" "buy" 1 100 99 "r" (1/4) .LOSS
        0).2.price = roundTo2 (100 - 1/4) ∧
    (executeOrder initExchange "NQ" "buy" 1 100 99 "r" (1/4) .LOSS
        0).2.action = "buy" ∧
    (executeOrder initExchange "NQ" "buy" 1 100 99 "r" (1/4) .LOSS
        0).1.history
      = initExchange.history ++ [(executeOrder initExchange "NQ" "buy" 1 100 99
          "r" (1/4) .LOSS 0).2] :=
  non_buy_treated_as_sell initExchange "NQ" "buy" 1 100 99 "r" (1/4) .LOSS 0
    (by decide)

end TradingAlgo
